import Mathlib

/-!
Verification of the core domain logic of the authentication / session-issuance
service (repository `authentication`, Python/FastAPI).  The Python sources are
shallowly embedded: UUIDs become `Nat`, `datetime` instants become `Int` (an
abstract, totally ordered clock; `datetime.now()` is passed explicitly as a
`now` parameter), Python exceptions become `Except String`, and mutation of a
pydantic model becomes functional record update.  Each definition carries a
pointer to the Python source it embeds.
-/

/-- Opaque identifier standing for Python `uuid.UUID` values. -/
abbrev UUID := Nat

/-- Abstract instant standing for Python `datetime` values (totally ordered). -/
abbrev Datetime := Int

/-- Embedding of `src/Shared/Enums.py`, `AuthenticationMethodEnum(str, Enum)`:
the six authentication-method values. -/
inductive AuthenticationMethodEnum where
  | password
  | mfa
  | google
  | facebook
  | github
  | twitter
deriving DecidableEq, Repr

/-- String value of each enum member, as declared in `src/Shared/Enums.py`
(`PASSWORD = "password"`, ..., `GITHUB = "social:github"`, ...). -/
def AuthenticationMethodEnum.str : AuthenticationMethodEnum → String
  | .password => "password"
  | .mfa => "mfa"
  | .google => "social:google"
  | .facebook => "social:facebook"
  | .github => "social:github"
  | .twitter => "social:twitter"

/-- Embedding of `src/Shared/Models.py`, class `AuthenticationMethod`:
a value object wrapping the method enum. -/
structure AuthenticationMethod where
  value : AuthenticationMethodEnum
deriving DecidableEq, Repr

/-- Embedding of `AuthenticationMethod._levelMap` (`src/Shared/Models.py`
lines 41-48): password and all social methods map to assurance level 1,
MFA to level 2. -/
def AuthenticationMethod.levelMap : AuthenticationMethodEnum → Nat
  | .password => 1
  | .mfa => 2
  | .google => 1
  | .facebook => 1
  | .github => 1
  | .twitter => 1

/-- Embedding of `AuthenticationMethod.__eq__` (`src/Shared/Models.py`
lines 53-57): two wrapped methods compare equal when their assurance levels
match.  Note: this relation is defined in the source but `ValidateSession`
does not call it (it compares `.value` directly); see the claims below. -/
def AuthenticationMethod.levelEq (a b : AuthenticationMethod) : Bool :=
  AuthenticationMethod.levelMap a.value == AuthenticationMethod.levelMap b.value

/-- Embedding of `src/Session/Domain/Models.py`, class `Session`
(a pydantic model mixing `HistoryClass` and `EventEmitter`): the persisted
fields.  The `EventEmitter` mixin is treated separately (see the pydantic
class-creation model below). -/
structure Session where
  id : UUID
  userId : UUID
  clientId : UUID
  scopes : List String
  codeChallenge : String
  expiresAt : Option Datetime
  authenticationMethod : AuthenticationMethod
  authenticationCodeId : Option UUID
  createdAt : Datetime
  updatedAt : Datetime
deriving DecidableEq, Repr

/-- Embedding of `Session.IsActive` (`src/Session/Domain/Models.py` lines
93-96): active when `expiresAt` is `None`, otherwise when
`expiresAt > datetime.now()`. -/
def Session.IsActive (s : Session) (now : Datetime) : Bool :=
  match s.expiresAt with
  | none => true
  | some t => decide (t > now)

/-- Embedding of `Session.Revoke` (`src/Session/Domain/Models.py` lines
81-85): sets `expiresAt` to the current time; the `@HistoryClass.UpdateTimestamp`
decorator then bumps `updatedAt` to the same instant. -/
def Session.Revoke (s : Session) (now : Datetime) : Session :=
  { s with expiresAt := some now, updatedAt := now }

/-- Embedding of `Session.RevokeAt` (`src/Session/Domain/Models.py` lines
87-91): sets `expiresAt` to a caller-given instant and bumps `updatedAt`. -/
def Session.RevokeAt (s : Session) (expiresAt : Datetime) (now : Datetime) : Session :=
  { s with expiresAt := some expiresAt, updatedAt := now }

/-- Embedding of `Session.HasScope` (`src/Session/Domain/Models.py` lines
98-99): membership of one scope string in `self.scopes`. -/
def Session.HasScope (s : Session) (scope : String) : Bool :=
  s.scopes.contains scope

/-- Embedding of `Session.HasAllScopes` (`src/Session/Domain/Models.py` lines
101-102): `all(scope in self.scopes for scope in requiredScopes)`. -/
def Session.HasAllScopes (s : Session) (requiredScopes : List String) : Bool :=
  requiredScopes.all (fun scope => s.scopes.contains scope)

/-- Embedding of `SessionValidationService.ValidateSession`
(`src/Session/Domain/Services.py` lines 8-38): the ordered chain of
validation gates, each raising `ValueError` with its message.  The
`authenticationMethod` argument is the raw enum value, exactly as the
handler passes `command.authenticationMethod.value`; the final gate compares
`session.authenticationMethod.value != authenticationMethod` (exact value
comparison, not `AuthenticationMethod.__eq__`). -/
def SessionValidationService.ValidateSession (session : Session) (userId : UUID)
    (requiredScopes : List String) (clientId : UUID) (codeChallenge : String)
    (authenticationMethod : AuthenticationMethodEnum) (now : Datetime) :
    Except String Unit :=
  if session.userId != userId then
    .error "Session does not belong to the user"
  else if !(session.HasAllScopes requiredScopes) then
    .error "Session does not have all required scopes"
  else if !(session.IsActive now) then
    .error "Session is revoked"
  else if session.clientId != clientId then
    .error "Client ID does not match"
  else if session.codeChallenge != codeChallenge then
    .error "Code challenge does not match"
  else if session.authenticationMethod.value != authenticationMethod then
    .error "Authentication method does not match"
  else
    .ok ()

/-- Embedding of `ValidateSessionCommand`
(`src/Session/Application/ValidateSession.py` lines 13-26). -/
structure ValidateSessionCommand where
  sessionId : Option UUID
  userId : UUID
  requiredScopes : List String
  clientId : UUID
  codeChallenge : String
  authenticationMethod : AuthenticationMethod
deriving Repr

/-- Read-only view of the session repository (`ISessionRepository.FindById`). -/
abbrev SessionStore := UUID → Option Session

/-- Embedding of `ValidateSessionHandler.Handle`
(`src/Session/Application/ValidateSession.py` lines 40-58): requires a
`sessionId`, looks the session up, then delegates to the domain service,
passing `command.authenticationMethod.value`.  The handler only reads the
repository (it never calls `Save`), so the store is returned unchanged as the
second component. -/
def ValidateSessionHandler.Handle (store : SessionStore) (now : Datetime)
    (command : ValidateSessionCommand) : Except String Unit × SessionStore :=
  match command.sessionId with
  | none => (.error "sessionId is required", store)
  | some sid =>
    match store sid with
    | none => (.error "Session not found", store)
    | some session =>
      (SessionValidationService.ValidateSession session command.userId
        command.requiredScopes command.clientId command.codeChallenge
        command.authenticationMethod.value now, store)

/-- Helper for the spec-side formulation of §4.6: return `()` when every gate
in the ordered list passes, otherwise the message of the first failing gate. -/
def firstFailingGate : List (Bool × String) → Except String Unit
  | [] => .ok ()
  | (pass, msg) :: rest => if pass then firstFailingGate rest else .error msg

/-- Formulation following the spec's words (§4.6): the ordered gate list
Ownership, Scope, Liveness, ClientBinding, ChallengeBinding, MethodAssurance
for a looked-up session, each paired with its rejection message.  The gate
contents are those of the code; the claim under test is the total order and
fail-fast (first-failure) shape. -/
def specSessionValidationGates (session : Session) (c : ValidateSessionCommand)
    (now : Datetime) : List (Bool × String) :=
  [ (session.userId == c.userId, "Session does not belong to the user"),
    (session.HasAllScopes c.requiredScopes, "Session does not have all required scopes"),
    (session.IsActive now, "Session is revoked"),
    (session.clientId == c.clientId, "Client ID does not match"),
    (session.codeChallenge == c.codeChallenge, "Code challenge does not match"),
    (session.authenticationMethod.value == c.authenticationMethod.value,
      "Authentication method does not match") ]

/-- Formulation following the spec's words (§4.6): Lookup first (missing id,
then missing session), then the ordered gates, first failure deciding the
outcome. -/
def specSessionValidation (store : SessionStore) (now : Datetime)
    (c : ValidateSessionCommand) : Except String Unit :=
  match c.sessionId with
  | none => .error "sessionId is required"
  | some sid =>
    match store sid with
    | none => .error "Session not found"
    | some session => firstFailingGate (specSessionValidationGates session c now)

/-- Embedding of `src/Authentication/Domain/Models.py`, class
`AuthenticationCredentials` (persisted fields). -/
structure AuthenticationCredentials where
  id : UUID
  userId : UUID
  username : String
  passwordHash : String
  mfaEnabled : Bool
  mfaSecret : Option String
  createdAt : Datetime
  updatedAt : Datetime
deriving DecidableEq, Repr

/-- Embedding of `AuthenticationCredentials.Create`
(`src/Authentication/Domain/Models.py` lines 78-112): the freshly drawn
`uuid4()` and `datetime.now()` are passed explicitly as `newId` / `now`; the
given field values are assigned as-is (in particular, `mfaEnabled` and
`mfaSecret` are passed through without any consistency check). -/
def AuthenticationCredentials.Create (newId : UUID) (now : Datetime)
    (userId : UUID) (username : String) (passwordHash : String)
    (mfaEnabled : Bool := false) (mfaSecret : Option String := none) :
    AuthenticationCredentials :=
  { id := newId, userId := userId, username := username,
    passwordHash := passwordHash, mfaEnabled := mfaEnabled,
    mfaSecret := mfaSecret, createdAt := now, updatedAt := now }

/-- Embedding of `AuthenticationCredentials.ChangePassword`
(`src/Authentication/Domain/Models.py` lines 147-156): replaces the hash;
the `UpdateTimestamp` decorator bumps `updatedAt`. -/
def AuthenticationCredentials.ChangePassword (c : AuthenticationCredentials)
    (newPasswordHash : String) (now : Datetime) : AuthenticationCredentials :=
  { c with passwordHash := newPasswordHash, updatedAt := now }

/-- Embedding of `AuthenticationCredentials.EnableMFA`
(`src/Authentication/Domain/Models.py` lines 158-169): when MFA is already
enabled the body returns early, preserving the existing secret (the
decorator still bumps `updatedAt`); otherwise it sets the flag and the
secret. -/
def AuthenticationCredentials.EnableMFA (c : AuthenticationCredentials)
    (mfaSecret : String) (now : Datetime) : AuthenticationCredentials :=
  if c.mfaEnabled then
    { c with updatedAt := now }
  else
    { c with mfaEnabled := true, mfaSecret := some mfaSecret, updatedAt := now }

/-- Embedding of `AuthenticationCredentials.DisableMFA`
(`src/Authentication/Domain/Models.py` lines 171-180): clears the flag and
the secret unconditionally; the decorator bumps `updatedAt`. -/
def AuthenticationCredentials.DisableMFA (c : AuthenticationCredentials)
    (now : Datetime) : AuthenticationCredentials :=
  { c with mfaEnabled := false, mfaSecret := none, updatedAt := now }

/-- Invariant asserted by spec §3 for `Credential`: the MFA secret is present
exactly when MFA is enabled. -/
def AuthenticationCredentials.MfaInvariant (c : AuthenticationCredentials) : Prop :=
  c.mfaSecret.isSome = c.mfaEnabled

instance (c : AuthenticationCredentials) : Decidable c.MfaInvariant := by
  unfold AuthenticationCredentials.MfaInvariant; infer_instance

/-- Embedding of `src/Authentication/Domain/Models.py`, class `RoleAssignment`
(persisted fields). -/
structure RoleAssignment where
  id : UUID
  userId : UUID
  roleId : UUID
  createdAt : Datetime
  updatedAt : Datetime
deriving DecidableEq, Repr

/-- Embedding of `src/Authentication/Domain/Models.py`, class `User`
(persisted fields). -/
structure User where
  id : UUID
  email : String
  isActive : Bool
  isVerified : Bool
  authenticationCredentials : AuthenticationCredentials
  roleAssignments : List RoleAssignment
  createdAt : Datetime
  updatedAt : Datetime
deriving DecidableEq, Repr

/-- Python truthiness/whitespace test used by `User.ChangeEmail`:
`not newEmail or newEmail.isspace()` — the string is empty, or it is
non-empty and consists of whitespace only (an empty string is already caught
by the first disjunct). -/
def pyEmptyOrSpace (s : String) : Bool :=
  s.isEmpty || s.toList.all Char.isWhitespace

/-- Embedding of the check `re.match(r"[^@]+@[^@]+\.[^@]+", newEmail)`
(`src/Authentication/Domain/Models.py` line 595).  Because `[^@]+` cannot
cross an `@`, a match from position 0 exists exactly when: the text before
the first `@` is non-empty, and the run of non-`@` characters following that
first `@` contains a `.` that is neither its first nor its last character. -/
def emailShapeMatch (s : String) : Bool :=
  let cs := s.toList
  let pre := cs.takeWhile (fun ch => ch != '@')
  match cs.dropWhile (fun ch => ch != '@') with
  | [] => false
  | _ :: after =>
    let run := after.takeWhile (fun ch => ch != '@')
    !pre.isEmpty && ((run.drop 1).dropLast.contains '.')

/-- Embedding of `User.ChangeEmail` (`src/Authentication/Domain/Models.py`
lines 583-600): rejects an empty/whitespace address, returns early (keeping
the email) when the address is unchanged, rejects a malformed shape, and
otherwise assigns the new address.  The `UpdateTimestamp` decorator bumps
`updatedAt` after every non-raising return — including the unchanged-email
early return; an exception propagates before the decorator runs, so the
error paths do not bump. -/
def User.ChangeEmail (u : User) (newEmail : String) (now : Datetime) :
    Except String User :=
  if pyEmptyOrSpace newEmail then
    .error "Invalid email address"
  else if u.email == newEmail then
    .ok { u with updatedAt := now }
  else if !emailShapeMatch newEmail then
    .error "Invalid email format"
  else
    .ok { u with email := newEmail, updatedAt := now }

/-- Fragment of a pydantic v2 field annotation relevant to the `EventEmitter`
mixin (`src/Shared/Events/Models.py`): a type either has a registered core
schema, or is an arbitrary Python class with no
`__get_pydantic_core_schema__` hook (such as the plain class `BaseEvent`,
lines 5-74), possibly nested under `List[...]`. -/
inductive PydanticFieldType where
  | registered
  | arbitraryClass (name : String)
  | listOf (t : PydanticFieldType)
deriving DecidableEq, Repr

/-- Model of pydantic v2 schema generation for a field type
(`GenerateSchema.match_type` falling through to `_unknown_type_schema`): an
arbitrary class is accepted (as an is-instance schema) only when
`arbitrary_types_allowed` is set in the model's effective configuration;
otherwise `PydanticSchemaGenerationError` is raised, and that error
propagates out of model class creation at import time. -/
def pydanticGenerateSchema (arbitraryTypesAllowed : Bool) :
    PydanticFieldType → Except String Unit
  | .registered => .ok ()
  | .arbitraryClass n =>
    if arbitraryTypesAllowed then .ok ()
    else .error ("PydanticSchemaGenerationError: " ++ n)
  | .listOf t => pydanticGenerateSchema arbitraryTypesAllowed t

/-- Attribute name pydantic v2 reads a model's configuration from. -/
def pydanticConfigAttrName : String := "model_config"

/-- Class-attribute table of `EventEmitter` as written in the source,
restricted to configuration entries: the `ConfigDict(arbitrary_types_allowed=True)`
sits under the attribute spelled `modelConfig`
(`src/Shared/Events/Models.py` line 183), and under no other name.  The
lookup returns the `arbitrary_types_allowed` value of the configuration
found under the given attribute name, if any. -/
def eventEmitterConfigLookup (attrName : String) : Option Bool :=
  if attrName = "modelConfig" then some true else none

/-- Effective `arbitrary_types_allowed` of the aggregates mixing in
`EventEmitter` (User, Session, AuthenticationCredentials, Role): pydantic
looks the configuration up under `model_config` and falls back to the
default `False` when that attribute is absent. -/
def aggregateArbitraryTypesAllowed : Bool :=
  (eventEmitterConfigLookup pydanticConfigAttrName).getD false

/-- The annotated type of the mixin's `events` class attribute
(`events: List[BaseEvent] = []`, `src/Shared/Events/Models.py` line 182),
which pydantic v2 collects as a model field from the class MRO of every
aggregate mixing in `EventEmitter`. -/
def eventsFieldType : PydanticFieldType :=
  .listOf (.arbitraryClass "BaseEvent")

/-- Model of aggregate class creation for the pydantic models mixing in
`EventEmitter`: pydantic collects the `events` field and must generate its
schema under the model's effective configuration; an error here is raised at
class-definition (import) time, before any aggregate instance can be
constructed. -/
def aggregateClassCreation : Except String Unit :=
  pydanticGenerateSchema aggregateArbitraryTypesAllowed eventsFieldType

/-- Shape test standing for bcrypt's parse of the stored hash: a real bcrypt
hash starts with a `$2a$` / `$2b$` / `$2y$` salt header.  Modelled from the
bcrypt library (an external collaborator of the core): `bcrypt.checkpw`
raises `ValueError("Invalid salt")` when the stored value does not carry a
well-formed bcrypt salt header. -/
def bcryptWellFormedHash (hashed : String) : Bool :=
  hashed.toList.take 4 == "$2a$".toList || hashed.toList.take 4 == "$2b$".toList ||
    hashed.toList.take 4 == "$2y$".toList

/-- Model of `bcrypt.checkpw` (external library): on a malformed stored hash
it raises `ValueError("Invalid salt")`; on a well-formed one it returns the
result of the constant-time digest comparison, abstracted here as the
`digestEq` oracle. -/
def bcryptCheckpw (digestEq : String → String → Bool)
    (plainText hashed : String) : Except String Bool :=
  if bcryptWellFormedHash hashed then .ok (digestEq plainText hashed)
  else .error "Invalid salt"

/-- Embedding of `BcryptHashingService.Verify`
(`src/Authentication/Infrastructure/Hashing.py` lines 15-16): a bare
passthrough `return bcrypt.checkpw(plainText.encode(), hashed.encode())`
with no `try`/`except` — whatever `checkpw` does (boolean result or raised
`ValueError`) is what `Verify` does. -/
def BcryptHashingService.Verify (checkpw : String → String → Except String Bool)
    (plainText hashed : String) : Except String Bool :=
  checkpw plainText hashed

/-- Embedding of `src/Shared/Config/AppConfig.py`, restricted to the field
the claims touch: `authCodeExpiryMinutes: int = Field(5, ...)` (line 33). -/
structure AppConfig where
  authCodeExpiryMinutes : Int := 5
deriving Repr

/-- Model of Python's `int(...)` on a decimal string: the value of a
non-empty all-digit string, `none` (a raised `ValueError`) otherwise.  Signs
and whitespace tolerated by Python are irrelevant for the configuration
strings at hand. -/
def pyIntParse (s : String) : Option Int :=
  let cs := s.toList
  if !cs.isEmpty && cs.all Char.isDigit then
    some (cs.foldl (fun acc ch => acc * 10 + ((ch.toNat : Int) - 48)) 0)
  else
    none

/-- Embedding of the `authCodeExpiryMinutes` line of `AppConfig.FromEnv`
(`src/Shared/Config/AppConfig.py` line 49):
`int(os.getenv("AUTH_CODE_EXPIRY_MINUTES", "10"))` — the environment is a
partial map from variable names to strings. -/
def AppConfig.fromEnvAuthCodeExpiryMinutes (env : String → Option String) :
    Option Int :=
  pyIntParse ((env "AUTH_CODE_EXPIRY_MINUTES").getD "10")

/-- Modelled from the spec: class `AuthenticationCode` is imported from
`src.Authentication.Domain.Models` throughout `src/` (`Sevices.py`,
`Interfaces.py`, `SqlRepositories.py`, `Authenticate.py` uses its `.id` and
`.code`), but its definition is not under `src/`.  Fields follow spec §3:
code (random URL-safe token), userId, clientId, scopes, optional PKCE
codeChallenge, expiresAt, createdAt/updatedAt — plus the `id` its callers
use. -/
structure AuthenticationCode where
  id : UUID
  code : String
  userId : UUID
  clientId : UUID
  scopes : List String
  codeChallenge : Option String
  expiresAt : Datetime
  createdAt : Datetime
  updatedAt : Datetime
deriving DecidableEq, Repr

/-- Modelled from the spec: `AuthenticationCode.Create` (called by
`AuthenticationCodeService.Generate` with `code`, `userId`, `clientId`,
`scopes`, `expiresAt`, `codeChallenge` keywords) constructs the value from
its arguments, drawing a fresh id and stamping both timestamps with the
current time, like the `Create` factories of the sibling domain models. -/
def AuthenticationCode.Create (newId : UUID) (now : Datetime) (code : String)
    (userId : UUID) (clientId : UUID) (scopes : List String)
    (expiresAt : Datetime) (codeChallenge : Option String) : AuthenticationCode :=
  { id := newId, code := code, userId := userId, clientId := clientId,
    scopes := scopes, codeChallenge := codeChallenge, expiresAt := expiresAt,
    createdAt := now, updatedAt := now }

/-- Byte count passed to `secrets.token_urlsafe` in
`AuthenticationCodeService.Generate` (`src/Authentication/Domain/Sevices.py`
line 30): 32 random bytes, i.e. 256 bits of entropy. -/
def secretsTokenUrlsafeNBytes : Nat := 32

/-- Embedding of `AuthenticationCodeService.Generate`
(`src/Authentication/Domain/Sevices.py` lines 27-43): the freshly generated
URL-safe token (`secrets.token_urlsafe(32)`) and id are passed explicitly as
`token` / `newId`; `expiresAt` is `now` plus the configured
`authCodeExpiryMinutes` (time measured in minutes).  The function only
constructs the value — it calls no repository. -/
def AuthenticationCodeService.Generate (cfg : AppConfig) (now : Datetime)
    (token : String) (newId : UUID) (userId : UUID) (clientId : UUID)
    (scopes : List String) (codeChallenge : Option String := none) :
    AuthenticationCode :=
  AuthenticationCode.Create newId now token userId clientId scopes
    (now + cfg.authCodeExpiryMinutes) codeChallenge

/-- Embedding of `AuthenticateCommand`
(`src/Authentication/Application/Authenticate.py` lines 15-20). -/
structure AuthenticateCommand where
  username : String
  password : String
  clientId : UUID
  codeChallenge : String
  scopes : List String
deriving Repr

/-- Embedding of `AuthenticateHandler.Handle`
(`src/Authentication/Application/Authenticate.py` lines 55-92).  The injected
collaborators are passed as functions: `findByUsername` is
`IUserRepository.FindByUsername`, `verify` is `IHashingService.Verify` (the
interface returns a boolean), `generateCode` is
`AuthenticationCodeService.Generate` with its randomness already applied, and
`createPasswordSession` is `ISessionService.CreatePasswordSession`.  Both
failure paths — unknown username, and failed password verification — raise
`ValueError("Invalid username or password")`. -/
def AuthenticateHandler.Handle (findByUsername : String → Option User)
    (verify : String → String → Bool)
    (generateCode : UUID → UUID → List String → Option String → AuthenticationCode)
    (createPasswordSession : UUID → UUID → List String → String → Option UUID → UUID)
    (command : AuthenticateCommand) : Except String (String × UUID) :=
  match findByUsername command.username with
  | none => .error "Invalid username or password"
  | some user =>
    if !(verify command.password user.authenticationCredentials.passwordHash) then
      .error "Invalid username or password"
    else
      let authenticationCode :=
        generateCode user.id command.clientId command.scopes (some command.codeChallenge)
      let sessionId :=
        createPasswordSession user.id command.clientId command.scopes
          command.codeChallenge (some authenticationCode.id)
      .ok (authenticationCode.code, sessionId)

/-- Concrete 43-character PKCE code challenge (the commands require a length
of 43-128). -/
def chal43 : String := "abcdefghijklmnopqrstuvwxyzABCDEFGHIJKLMNOPQ"

/-- Concrete session created the way `CreatePasswordSession`
(`src/Authentication/Infrastructure/Internal.py` lines 38-54) fixes the
method: `authenticationMethod = AuthenticationMethod(value=PASSWORD)`. -/
def sessionPwd : Session :=
  { id := 11, userId := 1, clientId := 2, scopes := ["read"],
    codeChallenge := chal43, expiresAt := none,
    authenticationMethod := { value := .password }, authenticationCodeId := none,
    createdAt := 0, updatedAt := 0 }

/-- Concrete session with scopes `["read", "write"]` for the scope-gate
claim. -/
def sessionScopesEx : Session :=
  { id := 12, userId := 2, clientId := 3, scopes := ["read", "write"],
    codeChallenge := chal43, expiresAt := none,
    authenticationMethod := { value := .password }, authenticationCodeId := none,
    createdAt := 0, updatedAt := 0 }

/-- Concrete non-expiring session for the revocation claim. -/
def sessionRevEx : Session :=
  { id := 13, userId := 7, clientId := 9, scopes := ["read"],
    codeChallenge := chal43, expiresAt := none,
    authenticationMethod := { value := .password }, authenticationCodeId := none,
    createdAt := 0, updatedAt := 0 }

/-- Concrete credentials with MFA disabled and no secret. -/
def credsEx0 : AuthenticationCredentials :=
  { id := 22, userId := 21, username := "alice", passwordHash := "h",
    mfaEnabled := false, mfaSecret := none, createdAt := 0, updatedAt := 0 }

/-- Concrete user whose email is `a@b.com`. -/
def userEmailEx : User :=
  { id := 21, email := "a@b.com", isActive := true, isVerified := false,
    authenticationCredentials := credsEx0, roleAssignments := [],
    createdAt := 0, updatedAt := 0 }

/-- Credentials built by `AuthenticationCredentials.Create` with the
inconsistent argument combination `mfaEnabled=True, mfaSecret=None`. -/
def credsMfaBad : AuthenticationCredentials :=
  AuthenticationCredentials.Create 31 0 30 "alice" "h" true none

/-- Credentials built by `AuthenticationCredentials.Create` with the default
argument combination (MFA off, no secret). -/
def credsMfaOk : AuthenticationCredentials :=
  AuthenticationCredentials.Create 41 0 40 "bob" "h" false none

/-- Concrete registered user for the authentication-failure claim; the
stored password hash is `"right"`. -/
def authUserEx : User :=
  { id := 50, email := "a@b.com", isActive := true, isVerified := false,
    authenticationCredentials :=
      { id := 51, userId := 50, username := "alice", passwordHash := "right",
        mfaEnabled := false, mfaSecret := none, createdAt := 0, updatedAt := 0 },
    roleAssignments := [], createdAt := 0, updatedAt := 0 }

/-- Concrete user repository holding only `alice`. -/
def authStoreEx : String → Option User :=
  fun username => if username = "alice" then some authUserEx else none

/-- Concrete code generator: `AuthenticationCodeService.Generate` with its
randomness fixed. -/
def genCodeEx : UUID → UUID → List String → Option String → AuthenticationCode :=
  fun uid cid scopes chal =>
    AuthenticationCodeService.Generate {} 0 "tok" 60 uid cid scopes chal

/-- Concrete session-creation collaborator returning a fixed session id. -/
def createSessEx : UUID → UUID → List String → String → Option UUID → UUID :=
  fun _ _ _ _ _ => 70

/-- Command whose username is not registered. -/
def authCmdUnknown : AuthenticateCommand :=
  { username := "bob", password := "password1", clientId := 2,
    codeChallenge := chal43, scopes := ["read"] }

/-- Command whose username exists but whose password is wrong. -/
def authCmdWrongPw : AuthenticateCommand :=
  { username := "alice", password := "wrongpass", clientId := 2,
    codeChallenge := chal43, scopes := ["read"] }

/-- C3: for every session and every `requiredScopes` list, the scope gate
(`Session.HasAllScopes`) passes exactly when every string of `requiredScopes`
is an element of `session.scopes` — a subset check in which order and
duplication are irrelevant (the result is invariant under permutation of
`requiredScopes`); the empty list always passes, and the gate fails whenever
`requiredScopes` holds a string outside `session.scopes`. -/
theorem C3_scope_gate_subset (s : Session) (requiredScopes : List String) :
    (s.HasAllScopes requiredScopes = true ↔ ∀ sc ∈ requiredScopes, sc ∈ s.scopes) ∧
    s.HasAllScopes [] = true ∧
    (∀ rs', requiredScopes.Perm rs' →
      s.HasAllScopes requiredScopes = s.HasAllScopes rs') ∧
    ((∃ sc ∈ requiredScopes, sc ∉ s.scopes) → s.HasAllScopes requiredScopes = false) := by
  have key : ∀ rs : List String,
      s.HasAllScopes rs = true ↔ ∀ sc ∈ rs, sc ∈ s.scopes := by
    intro rs
    simp [Session.HasAllScopes, List.all_eq_true]
  refine ⟨key requiredScopes, by simp [Session.HasAllScopes], ?_, ?_⟩
  · intro rs' hperm
    cases hA : s.HasAllScopes requiredScopes with
    | true =>
      have hB : s.HasAllScopes rs' = true :=
        (key rs').mpr fun sc hsc => (key requiredScopes).mp hA sc (hperm.mem_iff.mpr hsc)
      exact hB.symm
    | false =>
      cases hB : s.HasAllScopes rs' with
      | false => rfl
      | true =>
        have hC : s.HasAllScopes requiredScopes = true :=
          (key requiredScopes).mpr fun sc hsc => (key rs').mp hB sc (hperm.mem_iff.mp hsc)
        rw [hA] at hC
        exact absurd hC (by simp)
  · rintro ⟨sc, hscmem, hnot⟩
    cases hH : s.HasAllScopes requiredScopes with
    | false => rfl
    | true => exact absurd ((key requiredScopes).mp hH sc hscmem) hnot

/-- Closed witness for C3 at the spec's own example: a session with scopes
`["read", "write"]` passes for `["write", "read"]` exactly as for
`["read", "write"]`, and fails for `["read", "admin"]`. -/
theorem C3_scope_gate_subset_witness :
    sessionScopesEx.HasAllScopes ["write", "read"] =
      sessionScopesEx.HasAllScopes ["read", "write"] ∧
    sessionScopesEx.HasAllScopes ["read", "admin"] = false :=
  ⟨(C3_scope_gate_subset sessionScopesEx ["write", "read"]).2.2.1
      ["read", "write"] (by decide),
   (C3_scope_gate_subset sessionScopesEx ["read", "admin"]).2.2.2
      ⟨"admin", by decide, by decide⟩⟩

/-- C4: `IsActive` holds exactly when `expiresAt` is `None` or strictly later
than the current time; after `Revoke` at time `t` the session is inactive at
`t` and at every later time, a second `Revoke` leaves it inactive, and
validation of a revoked session fails at the liveness gate with
`"Session is revoked"` (given the earlier gates pass). -/
theorem C4_revocation (s : Session) (now t t' t'' : Datetime) :
    (s.IsActive now = true ↔
      s.expiresAt = none ∨ ∃ e, s.expiresAt = some e ∧ now < e) ∧
    (s.Revoke t).IsActive t = false ∧
    (t ≤ t' → (s.Revoke t).IsActive t' = false) ∧
    (t ≤ t' → t' ≤ t'' → ((s.Revoke t).Revoke t').IsActive t'' = false) ∧
    (∀ uid rs cid ch m, t ≤ t' → s.userId = uid → s.HasAllScopes rs = true →
      SessionValidationService.ValidateSession (s.Revoke t) uid rs cid ch m t' =
        .error "Session is revoked") := by
  refine ⟨?_, ?_, ?_, ?_, ?_⟩
  · cases h : s.expiresAt with
    | none => simp [Session.IsActive, h]
    | some e => simp [Session.IsActive, h]
  · simp [Session.Revoke, Session.IsActive]
  · intro h
    simp [Session.Revoke, Session.IsActive]
    exact h
  · intro h1 h2
    simp [Session.Revoke, Session.IsActive]
    exact h2
  · intro uid rs cid ch m h1 h2 h3
    subst h2
    have hsc : Session.HasAllScopes { s with expiresAt := some t, updatedAt := t } rs = true := by
      simpa [Session.HasAllScopes] using h3
    have hact : Session.IsActive { s with expiresAt := some t, updatedAt := t } t' = false := by
      simp [Session.IsActive]
      exact h1
    simp [SessionValidationService.ValidateSession, Session.Revoke, hsc, hact]

/-- Closed witness for C4: revoking the example session at time 1 makes it
inactive at time 2, a second revocation keeps it inactive, and validation at
time 2 rejects it with `"Session is revoked"`. -/
theorem C4_revocation_witness :
    (sessionRevEx.Revoke 1).IsActive 2 = false ∧
    ((sessionRevEx.Revoke 1).Revoke 2).IsActive 3 = false ∧
    SessionValidationService.ValidateSession (sessionRevEx.Revoke 1) 7 ["read"] 9
      chal43 .password 2 = .error "Session is revoked" :=
  ⟨(C4_revocation sessionRevEx 0 1 2 3).2.2.1 (by decide),
   (C4_revocation sessionRevEx 0 1 2 3).2.2.2.1 (by decide) (by decide),
   (C4_revocation sessionRevEx 0 1 2 3).2.2.2.2 7 ["read"] 9 chal43 .password
      (by decide) rfl (by decide)⟩

/-- C1 counterexample: password and `social:github` do have equal assurance
level (1), and `AuthenticationMethod.__eq__` even equates them, but a
validation request specifying `social:github` against a session created via
`CreatePasswordSession` — matching userId, scopes, clientId and
codeChallenge — is REJECTED with `"Authentication method does not match"`,
because `ValidateSession` compares the raw method values, not the levels. -/
theorem C1_level_equivalence_refuted :
    AuthenticationMethod.levelMap .password = 1 ∧
    AuthenticationMethod.levelMap .github = 1 ∧
    AuthenticationMethod.levelEq { value := .password } { value := .github } = true ∧
    SessionValidationService.ValidateSession sessionPwd 1 ["read"] 2 chal43
      .github 0 = .error "Authentication method does not match" :=
  ⟨rfl, rfl, rfl, rfl⟩

/-- C1 (amended): when the ownership, scope, liveness, client and challenge
gates all pass, `ValidateSession` succeeds exactly when the request's method
value is identical to the session's method value — the MethodAssurance gate
is an exact-value comparison (`session.authenticationMethod.value !=
authenticationMethod`), not a comparison of assurance levels. -/
theorem C1_method_gate_exact (s : Session) (uid : UUID) (rs : List String)
    (cid : UUID) (ch : String) (m : AuthenticationMethodEnum) (now : Datetime)
    (huid : s.userId = uid) (hsc : s.HasAllScopes rs = true)
    (hact : s.IsActive now = true) (hcid : s.clientId = cid)
    (hch : s.codeChallenge = ch) :
    SessionValidationService.ValidateSession s uid rs cid ch m now = .ok () ↔
      s.authenticationMethod.value = m := by
  subst huid hcid hch
  by_cases hm : s.authenticationMethod.value = m <;>
    simp [SessionValidationService.ValidateSession, hsc, hact, hm]

/-- Closed witness for C1's amended statement: the password session validates
successfully against a request whose method is exactly `password`. -/
theorem C1_method_gate_exact_witness :
    SessionValidationService.ValidateSession sessionPwd 1 ["read"] 2 chal43
      .password 0 = .ok () :=
  (C1_method_gate_exact sessionPwd 1 ["read"] 2 chal43 .password 0 rfl
    (by decide) (by decide) rfl rfl).mpr rfl

/-- Helper: a chain of six guarded rejections is the same function as
`firstFailingGate` on the corresponding gate list. -/
lemma firstFailingGate_six (b1 b2 b3 b4 b5 b6 : Bool) (m1 m2 m3 m4 m5 m6 : String) :
    (if !b1 then Except.error m1
     else if !b2 then Except.error m2
     else if !b3 then Except.error m3
     else if !b4 then Except.error m4
     else if !b5 then Except.error m5
     else if !b6 then Except.error m6
     else Except.ok ()) =
    firstFailingGate [(b1, m1), (b2, m2), (b3, m3), (b4, m4), (b5, m5), (b6, m6)] := by
  cases b1 <;> cases b2 <;> cases b3 <;> cases b4 <;> cases b5 <;> cases b6 <;>
    simp [firstFailingGate]

/-- C2: session validation is a first-failure gate chain in the fixed order
Lookup (missing id, then unknown session), Ownership, Scope, Liveness,
ClientBinding, ChallengeBinding, MethodAssurance — the handler's result
always equals the spec-side formulation that returns the message of the
first failing gate in that order (and succeeds with no value when all gates
pass); and the handler leaves the session store untouched. -/
theorem C2_first_failure_order (store : SessionStore) (now : Datetime)
    (c : ValidateSessionCommand) :
    (ValidateSessionHandler.Handle store now c).1 = specSessionValidation store now c ∧
    (ValidateSessionHandler.Handle store now c).2 = store := by
  constructor
  · cases hsid : c.sessionId with
    | none =>
      simp [ValidateSessionHandler.Handle, specSessionValidation, hsid]
    | some sid =>
      cases hst : store sid with
      | none =>
        simp [ValidateSessionHandler.Handle, specSessionValidation, hsid, hst]
      | some session =>
        simp only [ValidateSessionHandler.Handle, specSessionValidation, hsid, hst,
          specSessionValidationGates, SessionValidationService.ValidateSession, bne]
        exact firstFailingGate_six _ _ _ _ _ _ _ _ _ _ _ _
  · cases hsid : c.sessionId with
    | none => simp [ValidateSessionHandler.Handle, hsid]
    | some sid =>
      cases hst : store sid with
      | none => simp [ValidateSessionHandler.Handle, hsid, hst]
      | some session => simp [ValidateSessionHandler.Handle, hsid, hst]

/-- C5: contrary to the never-throws contract, `BcryptHashingService.Verify`
has no exception handling around `bcrypt.checkpw`, so on a malformed stored
hash (here `"nothash"`, which carries no bcrypt salt header) it propagates
bcrypt's `ValueError("Invalid salt")` instead of returning `false`. -/
theorem C5_verify_raises_on_malformed_hash :
    BcryptHashingService.Verify (bcryptCheckpw fun _ _ => false) "x" "nothash" =
      .error "Invalid salt" ∧
    BcryptHashingService.Verify (bcryptCheckpw fun _ _ => false) "x" "nothash" ≠
      .ok false := by
  have hwf : bcryptWellFormedHash "nothash" = false := by decide
  constructor
  · simp [BcryptHashingService.Verify, bcryptCheckpw, hwf]
  · simp [BcryptHashingService.Verify, bcryptCheckpw, hwf]

/-- C6: calling `ChangeEmail` with the unchanged address `"a@b.com"` keeps
the email but is not a complete no-op — the `UpdateTimestamp` decorator
still bumps `updatedAt` (here from `0` to `5`), contradicting the
no-timestamp-bump contract. -/
theorem C6_unchanged_email_bumps_timestamp :
    User.ChangeEmail userEmailEx "a@b.com" 5 =
      .ok { userEmailEx with updatedAt := 5 } ∧
    ({ userEmailEx with updatedAt := 5 } : User).email = userEmailEx.email ∧
    ({ userEmailEx with updatedAt := 5 } : User).updatedAt ≠ userEmailEx.updatedAt := by
  refine ⟨rfl, rfl, by decide⟩

/-- C7 counterexample: `AuthenticationCredentials.Create` performs no
consistency check on its optional arguments, so
`Create(..., mfaEnabled=True, mfaSecret=None)` yields a reachable value with
MFA enabled and no secret — violating the present-iff-enabled invariant. -/
theorem C7_create_violates_invariant :
    credsMfaBad.mfaEnabled = true ∧ credsMfaBad.mfaSecret = none ∧
    ¬ credsMfaBad.MfaInvariant :=
  ⟨rfl, rfl, by decide⟩

/-- C7 (amended): the present-iff-enabled MFA invariant is established by
`Create` whenever its `mfaEnabled`/`mfaSecret` arguments are themselves
consistent (in particular by the defaults), and it is preserved by
`ChangePassword`, `EnableMFA` and `DisableMFA`; `Create` alone does not
enforce it against inconsistent arguments. -/
theorem C7_invariant_preserved (c : AuthenticationCredentials)
    (newId uid : UUID) (now : Datetime)
    (username passwordHash newHash secret : String)
    (mfaEnabledArg : Bool) (mfaSecretArg : Option String)
    (hc : c.MfaInvariant) (hargs : mfaSecretArg.isSome = mfaEnabledArg) :
    (c.ChangePassword newHash now).MfaInvariant ∧
    (c.EnableMFA secret now).MfaInvariant ∧
    (c.DisableMFA now).MfaInvariant ∧
    (AuthenticationCredentials.Create newId now uid username passwordHash
      mfaEnabledArg mfaSecretArg).MfaInvariant := by
  unfold AuthenticationCredentials.MfaInvariant at *
  refine ⟨by simpa [AuthenticationCredentials.ChangePassword] using hc, ?_,
    by simp [AuthenticationCredentials.DisableMFA],
    by simpa [AuthenticationCredentials.Create] using hargs⟩
  by_cases h : c.mfaEnabled <;>
    simp [AuthenticationCredentials.EnableMFA, h, hc]

/-- Closed witness for C7's amended statement: enabling MFA on consistent
credentials keeps the invariant, as does `Create` with a secret matching
`mfaEnabled=True`. -/
theorem C7_invariant_preserved_witness :
    (credsMfaOk.EnableMFA "secret" 1).MfaInvariant ∧
    (AuthenticationCredentials.Create 42 1 40 "bob" "h" true (some "s")).MfaInvariant :=
  ⟨(C7_invariant_preserved credsMfaOk 42 40 1 "bob" "h" "x" "secret" true
      (some "s") (by decide) (by decide)).2.1,
   (C7_invariant_preserved credsMfaOk 42 40 1 "bob" "h" "x" "secret" true
      (some "s") (by decide) (by decide)).2.2.2⟩

/-- C8: the claimed disjoint instance-scoped event buffers never materialize
in the staged code — pydantic v2 collects the mixin's annotated `events`
field, the `arbitrary_types_allowed` configuration sits under the misspelled
attribute `modelConfig` so the effective configuration is the default
(`False`), and schema generation for the plain class `BaseEvent` therefore
raises `PydanticSchemaGenerationError` at aggregate class creation, before
any User, Session, AuthenticationCredentials or Role instance can exist;
with the same configuration value under pydantic's `model_config` name, the
class creation would succeed. -/
theorem C8_aggregate_class_creation_fails :
    aggregateArbitraryTypesAllowed = false ∧
    aggregateClassCreation = .error "PydanticSchemaGenerationError: BaseEvent" ∧
    pydanticGenerateSchema ((eventEmitterConfigLookup "modelConfig").getD false)
      eventsFieldType = .ok () :=
  ⟨rfl, rfl, rfl⟩

/-- C9: `AuthenticationCodeService.Generate` returns an authentication code
carrying exactly the given userId, clientId, scopes and codeChallenge, with
the freshly drawn token as its code and `expiresAt = now +
authCodeExpiryMinutes`; the model default of `authCodeExpiryMinutes` is 5,
`FromEnv` without an override yields 10, and the token is drawn from 32
random bytes — at least 256 bits of entropy.  `Generate` only constructs the
value (no persistence). -/
theorem C9_generate_authcode (cfg : AppConfig) (now : Datetime) (token : String)
    (newId uid cid : UUID) (scopes : List String) (chal : Option String) :
    AuthenticationCodeService.Generate cfg now token newId uid cid scopes chal =
      { id := newId, code := token, userId := uid, clientId := cid,
        scopes := scopes, codeChallenge := chal,
        expiresAt := now + cfg.authCodeExpiryMinutes,
        createdAt := now, updatedAt := now } ∧
    ({} : AppConfig).authCodeExpiryMinutes = 5 ∧
    AppConfig.fromEnvAuthCodeExpiryMinutes (fun _ => none) = some 10 ∧
    256 ≤ 8 * secretsTokenUrlsafeNBytes :=
  ⟨rfl, rfl, rfl, by decide⟩

/-- C10: the two authentication failure modes are indistinguishable from the
raised error — an unknown username and a known username with a failing
password verification both make `AuthenticateHandler.Handle` raise exactly
`ValueError("Invalid username or password")`, so the two runs produce
identical results. -/
theorem C10_indistinguishable_failures (findByUsername : String → Option User)
    (verify : String → String → Bool)
    (generateCode : UUID → UUID → List String → Option String → AuthenticationCode)
    (createPasswordSession : UUID → UUID → List String → String → Option UUID → UUID)
    (cmdA cmdB : AuthenticateCommand) (u : User)
    (hA : findByUsername cmdA.username = none)
    (hB : findByUsername cmdB.username = some u)
    (hV : verify cmdB.password u.authenticationCredentials.passwordHash = false) :
    AuthenticateHandler.Handle findByUsername verify generateCode
      createPasswordSession cmdA = .error "Invalid username or password" ∧
    AuthenticateHandler.Handle findByUsername verify generateCode
      createPasswordSession cmdB = .error "Invalid username or password" ∧
    AuthenticateHandler.Handle findByUsername verify generateCode
      createPasswordSession cmdA =
      AuthenticateHandler.Handle findByUsername verify generateCode
        createPasswordSession cmdB := by
  have eA : AuthenticateHandler.Handle findByUsername verify generateCode
      createPasswordSession cmdA = .error "Invalid username or password" := by
    simp [AuthenticateHandler.Handle, hA]
  have eB : AuthenticateHandler.Handle findByUsername verify generateCode
      createPasswordSession cmdB = .error "Invalid username or password" := by
    simp [AuthenticateHandler.Handle, hB, hV]
  exact ⟨eA, eB, eA.trans eB.symm⟩

/-- Closed witness for C10: against a repository holding only `alice` (hash
`"right"`), the run with unknown username `bob` and the run with `alice` and
a wrong password produce the same raised error. -/
theorem C10_indistinguishable_failures_witness :
    AuthenticateHandler.Handle authStoreEx (fun p h => p == h) genCodeEx
      createSessEx authCmdUnknown =
    AuthenticateHandler.Handle authStoreEx (fun p h => p == h) genCodeEx
      createSessEx authCmdWrongPw :=
  (C10_indistinguishable_failures authStoreEx (fun p h => p == h) genCodeEx
    createSessEx authCmdUnknown authCmdWrongPw authUserEx (by decide) (by decide)
    (by decide)).2.2
